import Mathlib

/-!
Verification of the financial-forecasting-engine core: deterministic
forecast builder (`src/forecasting.py`), DCF/WACC/terminal-value
mathematics (`src/valuation.py`) and the Monte Carlo driver
(`src/simulation.py`), shallowly embedded over `ℚ`.

Modelling conventions:
* pandas `DataFrame` → an integer row index plus an association list of
  named numeric columns (`List (String × List ℚ)`); column access is
  `List.lookup`.
* Raised exceptions → `Except ValError`; Python's `IndexError` from the
  out-of-range `fcfs[-1]` access is the `indexOutOfRange` constructor.
* `numpy` float arithmetic → exact rational arithmetic.
* `rng.normal(mu, sigma)` → `mu + sigma * z` where `z` is an externally
  supplied standard-normal draw; the generator is a stream of draw
  records, one per trial.
* `np.nan` sentinel entries of the result array → `Option.none`.
-/

/-- Error taxonomy of the valuation engine.  `missingColumn`,
`invalidDiscounting` and `invalidWeights` are the `ValueError`s raised in
`valuation.py`; `indexOutOfRange` models the Python `IndexError` raised by
`fcfs[-1]` on an empty FCFF column (not part of the spec's taxonomy). -/
inductive ValError
  | missingColumn
  | invalidDiscounting
  | invalidWeights
  | indexOutOfRange
  deriving DecidableEq, Repr

/-- A pandas DataFrame with numeric columns: a row index and named columns. -/
structure DataFrame where
  index : List Int
  cols : List (String × List ℚ)
  deriving DecidableEq, Repr

/-- `forecast_df["FCFF"]`-style column access. -/
def DataFrame.getCol (df : DataFrame) (name : String) : Option (List ℚ) :=
  df.cols.lookup name

/-- `calc_free_cash_flow` (valuation.py lines 6-10): returns the FCFF
column, raising if it is absent.  (`pd.to_numeric(..., errors="coerce")` is
the identity here since modelled columns are already numeric.) -/
def calc_free_cash_flow (forecast_df : DataFrame) : Except ValError (List ℚ) :=
  match forecast_df.getCol "FCFF" with
  | none => .error .missingColumn
  | some s => .ok s

/-- `wacc_calc` (valuation.py lines 12-37): CAPM cost of equity blended
with after-tax cost of debt; `cost_of_debt = none` models the Python
default `None`, replaced by 0.035. -/
def wacc_calc (beta rf rm market_debt market_equity : ℚ)
    (cost_of_debt : Option ℚ) (tax_rate : ℚ) : Except ValError ℚ :=
  let re := rf + beta * (rm - rf)
  let cod := cost_of_debt.getD (35 / 1000)
  let total := market_debt + market_equity
  if total ≤ 0 then
    .error .invalidWeights
  else
    let wd := market_debt / total
    let we := market_equity / total
    .ok (we * re + wd * cod * (1 - tax_rate))

/-- `discount_cash_flows` (valuation.py lines 39-49): discount factors
`(1+wacc)^i` for `i = 1..n` (`np.arange(1, n+1)`), elementwise division,
then the sum; returns `(pv_sum, discount_factors)`. -/
def discount_cash_flows (fcfs : List ℚ) (wacc : ℚ) : ℚ × List ℚ :=
  let n := fcfs.length
  let discount_factors := (List.range' 1 n).map (fun i => (1 + wacc) ^ i)
  let pv := ((fcfs.zip discount_factors).map (fun p => p.1 / p.2)).sum
  (pv, discount_factors)

/-- `terminal_value_gordon` (valuation.py lines 51-58). -/
def terminal_value_gordon (fcff_last wacc g : ℚ) : Except ValError ℚ :=
  if wacc ≤ g then
    .error .invalidDiscounting
  else
    .ok ((fcff_last * (1 + g)) / (wacc - g))

/-- `compute_dcf_value` (valuation.py lines 60-79): PV of the FCFF stream
plus PV of the Gordon terminal value; any error raised in a callee
propagates.  `fcfs.getLast?` is `fcfs[-1]`: `none` on an empty column
models the Python `IndexError`. -/
def compute_dcf_value (forecast_df : DataFrame) (wacc terminal_g : ℚ) :
    Except ValError ℚ :=
  match calc_free_cash_flow forecast_df with
  | .error e => .error e
  | .ok fcfs =>
    let pv_fcfs := (discount_cash_flows fcfs wacc).1
    match fcfs.getLast? with
    | none => .error .indexOutOfRange
    | some fcff_last =>
      match terminal_value_gordon fcff_last wacc terminal_g with
      | .error e => .error e
      | .ok tv => .ok (pv_fcfs + tv / (1 + wacc) ^ fcfs.length)

/-- `project_revenue` (forecasting.py lines 30-34):
`[last_value * (1 + growth_rate) ** i for i in range(1, years + 1)]`. -/
def project_revenue (last_value growth_rate : ℚ) (years : ℕ) : List ℚ :=
  (List.range' 1 years).map (fun i => last_value * (1 + growth_rate) ^ i)

/-- `build_forecast` (forecasting.py lines 42-80): all line items derived
columnwise (pandas Series arithmetic = elementwise `zipWith`/`map`) from
the projected revenue; index is pandas' default `0..years-1` unless
`start_year` is given, in which case `start_year+1 .. start_year+years`. -/
def build_forecast (last_revenue growth ebitda_margin capex_pct dep_pct
    wc_pct tax_rate : ℚ) (years : ℕ) (start_year : Option Int) : DataFrame :=
  let rev := project_revenue last_revenue growth years
  let ebitda := rev.map (· * ebitda_margin)
  let dep := rev.map (· * dep_pct)
  let ebit := List.zipWith (· - ·) ebitda dep
  let nopat := ebit.map (· * (1 - tax_rate))
  let capex := rev.map (· * capex_pct)
  let wc := rev.map (· * wc_pct)
  let fcff := List.zipWith (· - ·)
    (List.zipWith (· - ·) (List.zipWith (· + ·) nopat dep) capex) wc
  { index :=
      match start_year with
      | some s => (List.range' 1 years).map (fun i => s + (i : Int))
      | none => (List.range years).map (fun i => (i : Int))
    cols :=
      [("Revenue", rev), ("EBITDA", ebitda), ("Depreciation", dep),
       ("EBIT", ebit), ("NOPAT", nopat), ("Capex", capex),
       ("ΔWorkingCapital", wc), ("FCFF", fcff)] }

/-- `build_scenario_from_base` (forecasting.py lines 83-110): adjusts the
base parameters and delegates to `build_forecast`; the adjusted
`capex_pct` is the hard-coded `capex_mul * 0.06`. -/
def build_scenario_from_base (last_revenue base_growth base_margin
    growth_mul margin_delta capex_mul dep_pct wc_pct tax_rate : ℚ)
    (years : ℕ) (start_year : Option Int) : DataFrame :=
  let g := base_growth * growth_mul
  let m := base_margin + margin_delta
  build_forecast last_revenue g m (capex_mul * (6 / 100)) dep_pct wc_pct
    tax_rate years start_year

/-- The `base_inputs` dict of `run_mc_simulation` (simulation.py lines
23-25): required fields `last_revenue, growth, ebitda_margin, capex_pct,
dep_pct, wc_pct, tax_rate`. -/
structure BaseInputs where
  last_revenue : ℚ
  growth : ℚ
  ebitda_margin : ℚ
  capex_pct : ℚ
  dep_pct : ℚ
  wc_pct : ℚ
  tax_rate : ℚ
  deriving DecidableEq, Repr

/-- The `sigma_inputs` dict: per-field standard deviations.  A key absent
from the Python dict is read back as 0 by `sigma_inputs.get(k, 0)`, so a
missing key is the field value 0 here. -/
structure SigmaInputs where
  growth : ℚ
  ebitda_margin : ℚ
  capex_pct : ℚ
  dep_pct : ℚ
  wc_pct : ℚ
  tax_rate : ℚ
  deriving DecidableEq, Repr

/-- One trial's standard-normal draws, one per `rng.normal` call of the
loop body (simulation.py lines 35-60). -/
structure Draws where
  growth : ℚ
  ebitda_margin : ℚ
  capex_pct : ℚ
  dep_pct : ℚ
  wc_pct : ℚ
  tax_rate : ℚ
  wacc : ℚ
  terminal_g : ℚ
  deriving DecidableEq, Repr, Inhabited

/-- `rng.normal(mu, sigma)` for a standard-normal draw `z`. -/
def normal_draw (mu sigma z : ℚ) : ℚ := mu + sigma * z

/-- The effective per-trial parameters after sampling and clamping. -/
structure TrialParams where
  growth : ℚ
  ebitda_margin : ℚ
  capex_pct : ℚ
  dep_pct : ℚ
  wc_pct : ℚ
  tax_rate : ℚ
  wacc : ℚ
  terminal_g : ℚ
  deriving DecidableEq, Repr

/-- Sampling and safety-clamping phase of one Monte Carlo trial
(simulation.py lines 34-67): each field drawn from
`normal(base, sigma)`; `wacc` floored at 0.001 at the draw; then the
safety limits `ebitda_margin >= -0.5`, `capex_pct, dep_pct, wc_pct >= 0`,
`tax_rate` clamped to `[0, 1]`.  `growth` and `terminal_g` are unclamped. -/
def sample_trial_params (base : BaseInputs) (sigma : SigmaInputs)
    (wacc_base wacc_sigma terminal_g_base terminal_g_sigma : ℚ)
    (z : Draws) : TrialParams :=
  let growth := normal_draw base.growth sigma.growth z.growth
  let ebitda_margin :=
    normal_draw base.ebitda_margin sigma.ebitda_margin z.ebitda_margin
  let capex_pct := normal_draw base.capex_pct sigma.capex_pct z.capex_pct
  let dep_pct := normal_draw base.dep_pct sigma.dep_pct z.dep_pct
  let wc_pct := normal_draw base.wc_pct sigma.wc_pct z.wc_pct
  let tax_rate := normal_draw base.tax_rate sigma.tax_rate z.tax_rate
  let wacc := max (1 / 1000) (normal_draw wacc_base wacc_sigma z.wacc)
  let terminal_g :=
    normal_draw terminal_g_base terminal_g_sigma z.terminal_g
  { growth := growth
    ebitda_margin := max (-(1 / 2)) ebitda_margin
    capex_pct := max 0 capex_pct
    dep_pct := max 0 dep_pct
    wc_pct := max 0 wc_pct
    tax_rate := min (max 0 tax_rate) 1
    wacc := wacc
    terminal_g := terminal_g }

/-- One iteration of the Monte Carlo loop (simulation.py lines 32-88):
sample, clamp, build the forecast, value it; any raised exception is
converted to the NaN sentinel (`none`). -/
def mc_trial (base : BaseInputs) (sigma : SigmaInputs) (years : ℕ)
    (start_year : Option Int)
    (wacc_base wacc_sigma terminal_g_base terminal_g_sigma : ℚ)
    (z : Draws) : Option ℚ :=
  let p := sample_trial_params base sigma wacc_base wacc_sigma
    terminal_g_base terminal_g_sigma z
  let forecast_df := build_forecast base.last_revenue p.growth
    p.ebitda_margin p.capex_pct p.dep_pct p.wc_pct p.tax_rate years
    start_year
  match compute_dcf_value forecast_df p.wacc p.terminal_g with
  | .ok ev => some ev
  | .error _ => none

/-- `run_mc_simulation` (simulation.py lines 9-93): `n_sims` independent
trials in order; entry `i` of the result is trial `i`'s enterprise value
or the NaN sentinel.  `draws i` is the stream of standard-normal draws
the process-wide generator hands to trial `i`. -/
def run_mc_simulation (n_sims : ℕ) (base : BaseInputs)
    (sigma : SigmaInputs) (years : ℕ) (start_year : Option Int)
    (wacc_base wacc_sigma terminal_g_base terminal_g_sigma : ℚ)
    (draws : ℕ → Draws) : List (Option ℚ) :=
  (List.range n_sims).map (fun i =>
    mc_trial base sigma years start_year wacc_base wacc_sigma
      terminal_g_base terminal_g_sigma (draws i))

/-! Helper lemmas shared by the valuation theorems. -/

/-- Summing elementwise quotients against factors indexed by
`range' s`. -/
lemma zip_range'_div_sum (f : ℕ → ℚ) :
    ∀ (l : List ℚ) (s : ℕ),
      ((l.zip ((List.range' s l.length).map f)).map (fun p => p.1 / p.2)).sum
        = ∑ i in Finset.range l.length, l.getD i 0 / f (s + i) := by
  intro l
  induction l with
  | nil => intro s; simp
  | cons a t ih =>
    intro s
    rw [List.length_cons, List.range'_succ, List.map_cons, List.zip_cons_cons,
        List.map_cons, List.sum_cons, ih (s + 1), Finset.sum_range_succ']
    rw [add_comm]
    congr 1
    refine Finset.sum_congr rfl (fun i _ => ?_)
    rw [List.getD_cons_succ, show s + (i + 1) = s + 1 + i by omega]

/-- Closed form of the present-value component of `discount_cash_flows`. -/
lemma discount_cash_flows_pv (l : List ℚ) (w : ℚ) :
    (discount_cash_flows l w).1
      = ∑ i in Finset.range l.length, l.getD i 0 / (1 + w) ^ (i + 1) := by
  dsimp only [discount_cash_flows]
  rw [zip_range'_div_sum (fun i => (1 + w) ^ i) l 1]
  refine Finset.sum_congr rfl (fun i _ => ?_)
  rw [Nat.add_comm 1 i]

/-- Claim C1: on a forecast table whose FCFF column holds `fcfs` with at
least one row, and `wacc > terminal_g`, `compute_dcf_value` returns the
sum over `i = 1..N` of `FCFF[i] / (1+wacc)^i` plus the Gordon terminal
value `FCFF[N]*(1+terminal_g)/(wacc-terminal_g)` discounted by
`(1+wacc)^N`; it is a pure function of these inputs. -/
theorem compute_dcf_value_spec (df : DataFrame) (fcfs : List ℚ)
    (wacc terminal_g : ℚ) (hcol : df.getCol "FCFF" = some fcfs)
    (hne : fcfs ≠ []) (hgt : terminal_g < wacc) :
    compute_dcf_value df wacc terminal_g
      = .ok ((∑ i in Finset.range fcfs.length,
              fcfs.getD i 0 / (1 + wacc) ^ (i + 1))
          + (fcfs.getLast hne * (1 + terminal_g) / (wacc - terminal_g))
            / (1 + wacc) ^ fcfs.length) := by
  unfold compute_dcf_value calc_free_cash_flow
  rw [hcol]
  dsimp only
  rw [List.getLast?_eq_getLast_of_ne_nil hne]
  dsimp only
  unfold terminal_value_gordon
  rw [if_neg (not_le.mpr hgt)]
  dsimp only
  rw [discount_cash_flows_pv]

/-- Concrete two-row instance of the DCF table used by the witnesses. -/
def dfPair : DataFrame := ⟨[0, 1], [("FCFF", [100, 110])]⟩

/-- Witness for C1 at a concrete table and rates. -/
theorem compute_dcf_value_spec_witness :
    dfPair.getCol "FCFF" = some [100, 110]
      ∧ ([100, 110] : List ℚ) ≠ []
      ∧ (2 / 100 : ℚ) < 1 / 10
      ∧ compute_dcf_value dfPair (1 / 10) (2 / 100)
        = .ok ((∑ i in Finset.range ([100, 110] : List ℚ).length,
                ([100, 110] : List ℚ).getD i 0 / (1 + 1 / 10) ^ (i + 1))
            + (([100, 110] : List ℚ).getLast (by simp) * (1 + 2 / 100)
                / (1 / 10 - 2 / 100))
              / (1 + 1 / 10) ^ ([100, 110] : List ℚ).length) :=
  ⟨rfl, by simp, by norm_num,
    compute_dcf_value_spec dfPair [100, 110] (1 / 10) (2 / 100) rfl
      (by simp) (by norm_num)⟩

/-- Claim C3: on a forecast table with a nonempty FCFF column,
`compute_dcf_value` raises `InvalidDiscountingError` iff
`wacc <= terminal_g`; when it raises, no enterprise value is produced. -/
theorem compute_dcf_value_invalid_iff (df : DataFrame) (fcfs : List ℚ)
    (wacc terminal_g : ℚ) (hcol : df.getCol "FCFF" = some fcfs)
    (hne : fcfs ≠ []) :
    (compute_dcf_value df wacc terminal_g
        = .error ValError.invalidDiscounting) ↔ wacc ≤ terminal_g := by
  unfold compute_dcf_value calc_free_cash_flow
  rw [hcol]
  dsimp only
  rw [List.getLast?_eq_getLast_of_ne_nil hne]
  dsimp only
  unfold terminal_value_gordon
  by_cases h : wacc ≤ terminal_g <;> simp [h]

/-- Witness for C3 at a concrete table. -/
theorem compute_dcf_value_invalid_iff_witness :
    dfPair.getCol "FCFF" = some [100, 110]
      ∧ ([100, 110] : List ℚ) ≠ []
      ∧ ((compute_dcf_value dfPair (1 / 100) (2 / 100)
          = .error ValError.invalidDiscounting) ↔ (1 / 100 : ℚ) ≤ 2 / 100) :=
  ⟨rfl, by simp,
    compute_dcf_value_invalid_iff dfPair [100, 110] (1 / 100) (2 / 100) rfl
      (by simp)⟩

/-- Claim C7: `discount_cash_flows` on a length-`n` all-zero FCFF
sequence returns present value 0, for every `n` and every `wacc`. -/
theorem discount_cash_flows_zero_fcff (n : ℕ) (wacc : ℚ) :
    (discount_cash_flows (List.replicate n 0) wacc).1 = 0 := by
  rw [discount_cash_flows_pv]
  refine Finset.sum_eq_zero (fun i hi => ?_)
  rw [List.length_replicate] at hi
  simp [List.getD_eq_getElem?_getD, List.getElem?_replicate,
    Finset.mem_range.mp hi]

/-- Claim C9: `wacc_calc` raises `InvalidWeightsError` iff
`market_debt + market_equity <= 0`; otherwise it returns
`we*re + wd*cost_of_debt*(1-tax_rate)` with `re = rf + beta*(rm-rf)`,
value weights `wd`, `we`, and `cost_of_debt` defaulting to 0.035 when
unspecified. -/
theorem wacc_calc_spec (beta rf rm market_debt market_equity : ℚ)
    (cod : Option ℚ) (tax_rate : ℚ) :
    ((wacc_calc beta rf rm market_debt market_equity cod tax_rate
        = .error ValError.invalidWeights)
      ↔ market_debt + market_equity ≤ 0)
    ∧ (0 < market_debt + market_equity →
      wacc_calc beta rf rm market_debt market_equity cod tax_rate
        = .ok (market_equity / (market_debt + market_equity)
              * (rf + beta * (rm - rf))
            + market_debt / (market_debt + market_equity)
              * cod.getD (35 / 1000) * (1 - tax_rate))) := by
  constructor
  · unfold wacc_calc
    by_cases h : market_debt + market_equity ≤ 0 <;> simp [h]
  · intro h
    unfold wacc_calc
    simp [not_le.mpr h]

/-- Witness for C9 at concrete market values. -/
theorem wacc_calc_spec_witness :
    (0 : ℚ) < 50 + 50
      ∧ wacc_calc 1 (2 / 100) (8 / 100) 50 50 none (21 / 100)
        = .ok (50 / (50 + 50) * (2 / 100 + 1 * (8 / 100 - 2 / 100))
            + 50 / (50 + 50) * ((none : Option ℚ).getD (35 / 1000))
              * (1 - 21 / 100)) :=
  ⟨by norm_num,
    (wacc_calc_spec 1 (2 / 100) (8 / 100) 50 50 none (21 / 100)).2
      (by norm_num)⟩

/-- Claim C10: with the FCFF column present but empty,
`compute_dcf_value` fails with the out-of-range indexing error, which is
distinct from both spec-taxonomy errors; with at least one row that error
branch is unreachable. -/
theorem compute_dcf_value_index_error_iff (df : DataFrame) (fcfs : List ℚ)
    (wacc terminal_g : ℚ) (hcol : df.getCol "FCFF" = some fcfs) :
    ((fcfs = [] →
        compute_dcf_value df wacc terminal_g
            = .error ValError.indexOutOfRange
          ∧ ValError.indexOutOfRange ≠ ValError.missingColumn
          ∧ ValError.indexOutOfRange ≠ ValError.invalidDiscounting)
      ∧ (fcfs ≠ [] →
        compute_dcf_value df wacc terminal_g
            ≠ .error ValError.indexOutOfRange)) := by
  constructor
  · rintro rfl
    refine ⟨?_, by simp, by simp⟩
    unfold compute_dcf_value calc_free_cash_flow
    rw [hcol]
    rfl
  · intro hne
    unfold compute_dcf_value calc_free_cash_flow
    rw [hcol]
    dsimp only
    rw [List.getLast?_eq_getLast_of_ne_nil hne]
    dsimp only
    unfold terminal_value_gordon
    by_cases h : wacc ≤ terminal_g <;> simp [h]

/-- Concrete zero-row table with an FCFF column, for the C10 witness. -/
def dfEmpty : DataFrame := ⟨[], [("FCFF", [])]⟩

/-- Witness for C10 at the concrete empty table. -/
theorem compute_dcf_value_index_error_iff_witness :
    dfEmpty.getCol "FCFF" = some []
      ∧ ((([] : List ℚ) = [] →
          compute_dcf_value dfEmpty (1 / 10) (2 / 100)
              = .error ValError.indexOutOfRange
            ∧ ValError.indexOutOfRange ≠ ValError.missingColumn
            ∧ ValError.indexOutOfRange ≠ ValError.invalidDiscounting)
        ∧ (([] : List ℚ) ≠ [] →
          compute_dcf_value dfEmpty (1 / 10) (2 / 100)
              ≠ .error ValError.indexOutOfRange)) :=
  ⟨rfl,
    compute_dcf_value_index_error_iff dfEmpty [] (1 / 10) (2 / 100) rfl⟩

/-- Value at row `i` (0-based) of the named column; 0 outside bounds. -/
def colVal (df : DataFrame) (name : String) (i : ℕ) : ℚ :=
  ((df.getCol name).getD []).getD i 0

/-- `getD` through `map` inside bounds. -/
lemma getD_map_lt (l : List ℚ) (f : ℚ → ℚ) (i : ℕ) (h : i < l.length) :
    (l.map f).getD i 0 = f (l.getD i 0) := by
  rw [List.getD_eq_getElem _ _ (by simpa using h),
      List.getD_eq_getElem _ _ h, List.getElem_map]

/-- Entries of `project_revenue` in closed form. -/
lemma project_revenue_getD (lr g : ℚ) (years i : ℕ) (h : i < years) :
    (project_revenue lr g years).getD i 0 = lr * (1 + g) ^ (i + 1) := by
  have hlen : i < (project_revenue lr g years).length := by
    simpa [project_revenue] using h
  rw [List.getD_eq_getElem _ _ hlen]
  simp only [project_revenue, List.getElem_map, List.getElem_range']
  rw [show 1 + 1 * i = i + 1 by omega]

/-- Elementwise combination of two mapped copies of the same list. -/
lemma zipWith_map_same (f : ℚ → ℚ → ℚ) (g h : ℚ → ℚ) (l : List ℚ) :
    List.zipWith f (l.map g) (l.map h) = l.map (fun r => f (g r) (h r)) := by
  rw [List.zipWith_map, List.zipWith_same]

/-- Claim C2: `build_forecast` returns exactly `years` chronologically
ordered rows with all eight columns, where row `i` (holding year `i+1`)
satisfies revenue compounding anchored directly at `last_revenue` and the
derived line-item identities; `build_forecast` is total, so no input
causes a failure. -/
theorem build_forecast_spec (last_revenue growth ebitda_margin capex_pct
    dep_pct wc_pct tax_rate : ℚ) (years : ℕ) (start_year : Option Int)
    (df : DataFrame)
    (hdf : df = build_forecast last_revenue growth ebitda_margin capex_pct
        dep_pct wc_pct tax_rate years start_year)
    (hy : 1 ≤ years) :
    (df.cols.map Prod.fst
        = ["Revenue", "EBITDA", "Depreciation", "EBIT", "NOPAT", "Capex",
           "ΔWorkingCapital", "FCFF"])
    ∧ (∀ c ∈ df.cols, c.2.length = years)
    ∧ (∀ i, i < years →
        colVal df "Revenue" i = last_revenue * (1 + growth) ^ (i + 1)
        ∧ colVal df "EBITDA" i = colVal df "Revenue" i * ebitda_margin
        ∧ colVal df "Depreciation" i = colVal df "Revenue" i * dep_pct
        ∧ colVal df "EBIT" i
            = colVal df "EBITDA" i - colVal df "Depreciation" i
        ∧ colVal df "NOPAT" i = colVal df "EBIT" i * (1 - tax_rate)
        ∧ colVal df "Capex" i = colVal df "Revenue" i * capex_pct
        ∧ colVal df "ΔWorkingCapital" i = colVal df "Revenue" i * wc_pct
        ∧ colVal df "FCFF" i
            = colVal df "NOPAT" i + colVal df "Depreciation" i
              - colVal df "Capex" i - colVal df "ΔWorkingCapital" i) := by
  subst hdf
  have hrevlen : (project_revenue last_revenue growth years).length = years := by
    simp [project_revenue]
  refine ⟨rfl, ?_, ?_⟩
  · intro c hc
    simp only [build_forecast, List.mem_cons, List.not_mem_nil, or_false] at hc
    rcases hc with h|h|h|h|h|h|h|h <;> subst h <;>
      simp [List.length_zipWith, hrevlen]
  · intro i hi
    have hilt : i < (project_revenue last_revenue growth years).length := by
      rw [hrevlen]; exact hi
    have hgd : ∀ f : ℚ → ℚ,
        ((project_revenue last_revenue growth years).map f).getD i 0
          = f ((project_revenue last_revenue growth years).getD i 0) :=
      fun f => getD_map_lt _ f _ hilt
    have hR : (build_forecast last_revenue growth ebitda_margin capex_pct
        dep_pct wc_pct tax_rate years start_year).getCol "Revenue"
        = some (project_revenue last_revenue growth years) := rfl
    have hE : (build_forecast last_revenue growth ebitda_margin capex_pct
        dep_pct wc_pct tax_rate years start_year).getCol "EBITDA"
        = some ((project_revenue last_revenue growth years).map
            (· * ebitda_margin)) := rfl
    have hD : (build_forecast last_revenue growth ebitda_margin capex_pct
        dep_pct wc_pct tax_rate years start_year).getCol "Depreciation"
        = some ((project_revenue last_revenue growth years).map
            (· * dep_pct)) := rfl
    have hEB : (build_forecast last_revenue growth ebitda_margin capex_pct
        dep_pct wc_pct tax_rate years start_year).getCol "EBIT"
        = some (List.zipWith (· - ·)
            ((project_revenue last_revenue growth years).map (· * ebitda_margin))
            ((project_revenue last_revenue growth years).map (· * dep_pct))) := rfl
    have hN : (build_forecast last_revenue growth ebitda_margin capex_pct
        dep_pct wc_pct tax_rate years start_year).getCol "NOPAT"
        = some ((List.zipWith (· - ·)
            ((project_revenue last_revenue growth years).map (· * ebitda_margin))
            ((project_revenue last_revenue growth years).map (· * dep_pct))).map
              (· * (1 - tax_rate))) := rfl
    have hC : (build_forecast last_revenue growth ebitda_margin capex_pct
        dep_pct wc_pct tax_rate years start_year).getCol "Capex"
        = some ((project_revenue last_revenue growth years).map
            (· * capex_pct)) := rfl
    have hW : (build_forecast last_revenue growth ebitda_margin capex_pct
        dep_pct wc_pct tax_rate years start_year).getCol "ΔWorkingCapital"
        = some ((project_revenue last_revenue growth years).map
            (· * wc_pct)) := rfl
    have hF : (build_forecast last_revenue growth ebitda_margin capex_pct
        dep_pct wc_pct tax_rate years start_year).getCol "FCFF"
        = some (List.zipWith (· - ·)
            (List.zipWith (· - ·)
              (List.zipWith (· + ·)
                ((List.zipWith (· - ·)
                  ((project_revenue last_revenue growth years).map (· * ebitda_margin))
                  ((project_revenue last_revenue growth years).map (· * dep_pct))).map
                    (· * (1 - tax_rate)))
                ((project_revenue last_revenue growth years).map (· * dep_pct)))
              ((project_revenue last_revenue growth years).map (· * capex_pct)))
            ((project_revenue last_revenue growth years).map (· * wc_pct))) := rfl
    refine ⟨?_, ?_, ?_, ?_, ?_, ?_, ?_, ?_⟩ <;>
      simp only [colVal, hR, hE, hD, hEB, hN, hC, hW, hF, Option.getD_some,
        List.map_map, zipWith_map_same, Function.comp, hgd]
    exact project_revenue_getD _ _ _ _ hi

/-- The §8 concrete scenario's forecast table, used by the C2 witness. -/
def dfConcrete : DataFrame :=
  build_forecast 28000 (8 / 100) (34 / 100) (6 / 100) (5 / 100) (1 / 100)
    (21 / 100) 5 none

/-- Witness for C2 at the §8 concrete scenario. -/
theorem build_forecast_spec_witness :
    dfConcrete
        = build_forecast 28000 (8 / 100) (34 / 100) (6 / 100) (5 / 100)
            (1 / 100) (21 / 100) 5 none
    ∧ 1 ≤ 5
    ∧ ((dfConcrete.cols.map Prod.fst
        = ["Revenue", "EBITDA", "Depreciation", "EBIT", "NOPAT", "Capex",
           "ΔWorkingCapital", "FCFF"])
      ∧ (∀ c ∈ dfConcrete.cols, c.2.length = 5)
      ∧ (∀ i, i < 5 →
          colVal dfConcrete "Revenue" i = 28000 * (1 + 8 / 100) ^ (i + 1)
          ∧ colVal dfConcrete "EBITDA" i
              = colVal dfConcrete "Revenue" i * (34 / 100)
          ∧ colVal dfConcrete "Depreciation" i
              = colVal dfConcrete "Revenue" i * (5 / 100)
          ∧ colVal dfConcrete "EBIT" i
              = colVal dfConcrete "EBITDA" i
                - colVal dfConcrete "Depreciation" i
          ∧ colVal dfConcrete "NOPAT" i
              = colVal dfConcrete "EBIT" i * (1 - 21 / 100)
          ∧ colVal dfConcrete "Capex" i
              = colVal dfConcrete "Revenue" i * (6 / 100)
          ∧ colVal dfConcrete "ΔWorkingCapital" i
              = colVal dfConcrete "Revenue" i * (1 / 100)
          ∧ colVal dfConcrete "FCFF" i
              = colVal dfConcrete "NOPAT" i
                + colVal dfConcrete "Depreciation" i
                - colVal dfConcrete "Capex" i
                - colVal dfConcrete "ΔWorkingCapital" i)) :=
  ⟨rfl, by decide,
    build_forecast_spec 28000 (8 / 100) (34 / 100) (6 / 100) (5 / 100)
      (1 / 100) (21 / 100) 5 none dfConcrete rfl (by decide)⟩

/-- Claim C8: `build_scenario_from_base` returns exactly the table
`build_forecast` returns for the adjusted assumptions
`growth = base_growth*growth_mul`, `ebitda_margin = base_margin +
margin_delta`, `capex_pct = capex_mul*0.06` (a fixed constant baseline),
with `dep_pct`, `wc_pct`, `tax_rate`, `years`, `start_year` passed
through unchanged. -/
theorem build_scenario_from_base_spec (last_revenue base_growth base_margin
    growth_mul margin_delta capex_mul dep_pct wc_pct tax_rate : ℚ)
    (years : ℕ) (start_year : Option Int) :
    build_scenario_from_base last_revenue base_growth base_margin growth_mul
        margin_delta capex_mul dep_pct wc_pct tax_rate years start_year
      = build_forecast last_revenue (base_growth * growth_mul)
          (base_margin + margin_delta) (capex_mul * (6 / 100)) dep_pct
          wc_pct tax_rate years start_year := rfl

/-- Claim C5: in every Monte Carlo trial and for every random draw, the
effective parameters after clamping satisfy `ebitda_margin >= -0.5`,
`capex_pct >= 0`, `dep_pct >= 0`, `wc_pct >= 0`, `0 <= tax_rate <= 1`
and `wacc >= 0.001`. -/
theorem sample_trial_params_clamped (base : BaseInputs)
    (sigma : SigmaInputs)
    (wacc_base wacc_sigma terminal_g_base terminal_g_sigma : ℚ)
    (z : Draws) (p : TrialParams)
    (hp : p = sample_trial_params base sigma wacc_base wacc_sigma
        terminal_g_base terminal_g_sigma z) :
    -(1 / 2) ≤ p.ebitda_margin
    ∧ 0 ≤ p.capex_pct
    ∧ 0 ≤ p.dep_pct
    ∧ 0 ≤ p.wc_pct
    ∧ 0 ≤ p.tax_rate ∧ p.tax_rate ≤ 1
    ∧ 1 / 1000 ≤ p.wacc := by
  subst hp
  dsimp only [sample_trial_params]
  refine ⟨le_max_left _ _, le_max_left _ _, le_max_left _ _,
    le_max_left _ _, le_min (le_max_left _ _) zero_le_one,
    min_le_right _ _, le_max_left _ _⟩

/-- Witness for C5 at a concrete base, sigma and draw. -/
theorem sample_trial_params_clamped_witness :
    sample_trial_params ⟨28000, 8 / 100, 34 / 100, 6 / 100, 5 / 100,
          1 / 100, 21 / 100⟩ ⟨1 / 100, 2 / 100, 1 / 100, 1 / 100, 1 / 100,
          1 / 100⟩ (75 / 1000) (15 / 1000) (25 / 1000) (5 / 1000)
        ⟨-3, -100, -2, -1, -1, 50, -40, 1⟩
      = sample_trial_params ⟨28000, 8 / 100, 34 / 100, 6 / 100, 5 / 100,
          1 / 100, 21 / 100⟩ ⟨1 / 100, 2 / 100, 1 / 100, 1 / 100, 1 / 100,
          1 / 100⟩ (75 / 1000) (15 / 1000) (25 / 1000) (5 / 1000)
        ⟨-3, -100, -2, -1, -1, 50, -40, 1⟩
    ∧ (-(1 / 2) ≤ (sample_trial_params ⟨28000, 8 / 100, 34 / 100, 6 / 100,
          5 / 100, 1 / 100, 21 / 100⟩ ⟨1 / 100, 2 / 100, 1 / 100, 1 / 100,
          1 / 100, 1 / 100⟩ (75 / 1000) (15 / 1000) (25 / 1000) (5 / 1000)
        ⟨-3, -100, -2, -1, -1, 50, -40, 1⟩).ebitda_margin
      ∧ 0 ≤ (sample_trial_params ⟨28000, 8 / 100, 34 / 100, 6 / 100,
          5 / 100, 1 / 100, 21 / 100⟩ ⟨1 / 100, 2 / 100, 1 / 100, 1 / 100,
          1 / 100, 1 / 100⟩ (75 / 1000) (15 / 1000) (25 / 1000) (5 / 1000)
        ⟨-3, -100, -2, -1, -1, 50, -40, 1⟩).capex_pct
      ∧ 0 ≤ (sample_trial_params ⟨28000, 8 / 100, 34 / 100, 6 / 100,
          5 / 100, 1 / 100, 21 / 100⟩ ⟨1 / 100, 2 / 100, 1 / 100, 1 / 100,
          1 / 100, 1 / 100⟩ (75 / 1000) (15 / 1000) (25 / 1000) (5 / 1000)
        ⟨-3, -100, -2, -1, -1, 50, -40, 1⟩).dep_pct
      ∧ 0 ≤ (sample_trial_params ⟨28000, 8 / 100, 34 / 100, 6 / 100,
          5 / 100, 1 / 100, 21 / 100⟩ ⟨1 / 100, 2 / 100, 1 / 100, 1 / 100,
          1 / 100, 1 / 100⟩ (75 / 1000) (15 / 1000) (25 / 1000) (5 / 1000)
        ⟨-3, -100, -2, -1, -1, 50, -40, 1⟩).wc_pct
      ∧ 0 ≤ (sample_trial_params ⟨28000, 8 / 100, 34 / 100, 6 / 100,
          5 / 100, 1 / 100, 21 / 100⟩ ⟨1 / 100, 2 / 100, 1 / 100, 1 / 100,
          1 / 100, 1 / 100⟩ (75 / 1000) (15 / 1000) (25 / 1000) (5 / 1000)
        ⟨-3, -100, -2, -1, -1, 50, -40, 1⟩).tax_rate
      ∧ (sample_trial_params ⟨28000, 8 / 100, 34 / 100, 6 / 100,
          5 / 100, 1 / 100, 21 / 100⟩ ⟨1 / 100, 2 / 100, 1 / 100, 1 / 100,
          1 / 100, 1 / 100⟩ (75 / 1000) (15 / 1000) (25 / 1000) (5 / 1000)
        ⟨-3, -100, -2, -1, -1, 50, -40, 1⟩).tax_rate ≤ 1
      ∧ 1 / 1000 ≤ (sample_trial_params ⟨28000, 8 / 100, 34 / 100, 6 / 100,
          5 / 100, 1 / 100, 21 / 100⟩ ⟨1 / 100, 2 / 100, 1 / 100, 1 / 100,
          1 / 100, 1 / 100⟩ (75 / 1000) (15 / 1000) (25 / 1000) (5 / 1000)
        ⟨-3, -100, -2, -1, -1, 50, -40, 1⟩).wacc) :=
  ⟨rfl,
    sample_trial_params_clamped ⟨28000, 8 / 100, 34 / 100, 6 / 100, 5 / 100,
        1 / 100, 21 / 100⟩ ⟨1 / 100, 2 / 100, 1 / 100, 1 / 100, 1 / 100,
        1 / 100⟩ (75 / 1000) (15 / 1000) (25 / 1000) (5 / 1000)
      ⟨-3, -100, -2, -1, -1, 50, -40, 1⟩ _ rfl⟩

/-- A trial with all standard deviations zero ignores its draws. -/
lemma mc_trial_zero_sigma (base : BaseInputs) (years : ℕ)
    (start_year : Option Int) (wacc_base terminal_g_base : ℚ) (z : Draws) :
    mc_trial base ⟨0, 0, 0, 0, 0, 0⟩ years start_year wacc_base 0
        terminal_g_base 0 z
      = mc_trial base ⟨0, 0, 0, 0, 0, 0⟩ years start_year wacc_base 0
          terminal_g_base 0 ⟨0, 0, 0, 0, 0, 0, 0, 0⟩ := by
  unfold mc_trial sample_trial_params normal_draw
  simp

/-- Claim C6: with every standard deviation equal to 0, zero-variance
sampling degenerates to the base value, and every trial of
`run_mc_simulation` yields the identical enterprise value, so the
resulting distribution is constant (zero variance). -/
theorem run_mc_simulation_zero_sigma (n : ℕ) (base : BaseInputs)
    (years : ℕ) (start_year : Option Int)
    (wacc_base terminal_g_base : ℚ) (draws : ℕ → Draws) (hn : 1 ≤ n) :
    (∀ mu z : ℚ, normal_draw mu 0 z = mu)
    ∧ run_mc_simulation n base ⟨0, 0, 0, 0, 0, 0⟩ years start_year
        wacc_base 0 terminal_g_base 0 draws
      = List.replicate n (mc_trial base ⟨0, 0, 0, 0, 0, 0⟩ years
          start_year wacc_base 0 terminal_g_base 0
          ⟨0, 0, 0, 0, 0, 0, 0, 0⟩) := by
  refine ⟨fun mu z => by simp [normal_draw], ?_⟩
  unfold run_mc_simulation
  have h : ∀ i ∈ List.range n,
      mc_trial base ⟨0, 0, 0, 0, 0, 0⟩ years start_year wacc_base 0
          terminal_g_base 0 (draws i)
        = mc_trial base ⟨0, 0, 0, 0, 0, 0⟩ years start_year wacc_base 0
            terminal_g_base 0 ⟨0, 0, 0, 0, 0, 0, 0, 0⟩ :=
    fun i _ => mc_trial_zero_sigma base years start_year wacc_base
      terminal_g_base (draws i)
  rw [List.map_congr_left h]
  simp

/-- Witness for C6 at a concrete run of three trials. -/
theorem run_mc_simulation_zero_sigma_witness :
    1 ≤ 3
    ∧ ((∀ mu z : ℚ, normal_draw mu 0 z = mu)
      ∧ run_mc_simulation 3 ⟨28000, 8 / 100, 34 / 100, 6 / 100, 5 / 100,
            1 / 100, 21 / 100⟩ ⟨0, 0, 0, 0, 0, 0⟩ 2 none (75 / 1000) 0
            (25 / 1000) 0 (fun _ => ⟨1, 1, 1, 1, 1, 1, 1, 1⟩)
        = List.replicate 3 (mc_trial ⟨28000, 8 / 100, 34 / 100, 6 / 100,
            5 / 100, 1 / 100, 21 / 100⟩ ⟨0, 0, 0, 0, 0, 0⟩ 2 none
            (75 / 1000) 0 (25 / 1000) 0 ⟨0, 0, 0, 0, 0, 0, 0, 0⟩)) :=
  ⟨by decide,
    run_mc_simulation_zero_sigma 3 ⟨28000, 8 / 100, 34 / 100, 6 / 100,
        5 / 100, 1 / 100, 21 / 100⟩ 2 none (75 / 1000) (25 / 1000)
      (fun _ => ⟨1, 1, 1, 1, 1, 1, 1, 1⟩) (by decide)⟩

/-- Counting sentinel and valid entries partitions any distribution. -/
lemma countP_isNone_add_isSome : ∀ l : List (Option ℚ),
    l.countP (fun v => v.isNone) + l.countP (fun v => v.isSome)
      = l.length := by
  intro l
  induction l with
  | nil => rfl
  | cons v t ih => cases v <;> simp [List.countP_cons] <;> omega

/-- Claim C4: `run_mc_simulation` returns a distribution of length
exactly `n_trials` with one entry per trial in trial order; sentinel
(`none`) entries plus valid entries count to exactly `n_trials`, and
entry `i` is exactly trial `i`'s outcome (sentinel when its valuation
raises), so no trial is dropped or duplicated. -/
theorem run_mc_simulation_trials (n : ℕ) (base : BaseInputs)
    (sigma : SigmaInputs) (years : ℕ) (start_year : Option Int)
    (wacc_base wacc_sigma terminal_g_base terminal_g_sigma : ℚ)
    (draws : ℕ → Draws) (hn : 1 ≤ n) :
    (run_mc_simulation n base sigma years start_year wacc_base wacc_sigma
        terminal_g_base terminal_g_sigma draws).length = n
    ∧ (run_mc_simulation n base sigma years start_year wacc_base
          wacc_sigma terminal_g_base terminal_g_sigma draws).countP
          (fun v => v.isNone)
        + (run_mc_simulation n base sigma years start_year wacc_base
            wacc_sigma terminal_g_base terminal_g_sigma draws).countP
            (fun v => v.isSome) = n
    ∧ (∀ i, i < n →
        (run_mc_simulation n base sigma years start_year wacc_base
            wacc_sigma terminal_g_base terminal_g_sigma draws)[i]?
          = some (mc_trial base sigma years start_year wacc_base
              wacc_sigma terminal_g_base terminal_g_sigma (draws i))) := by
  refine ⟨by simp [run_mc_simulation], ?_, ?_⟩
  · rw [countP_isNone_add_isSome]
    simp [run_mc_simulation]
  · intro i hi
    simp [run_mc_simulation, List.getElem?_map, List.getElem?_range, hi]

/-- Witness for C4 at a concrete run of two trials. -/
theorem run_mc_simulation_trials_witness :
    1 ≤ 2
    ∧ ((run_mc_simulation 2 ⟨28000, 8 / 100, 34 / 100, 6 / 100, 5 / 100,
          1 / 100, 21 / 100⟩ ⟨1 / 100, 1 / 100, 1 / 100, 1 / 100, 1 / 100,
          1 / 100⟩ 1 none (75 / 1000) (15 / 1000) (25 / 1000) (5 / 1000)
          (fun _ => ⟨0, 0, 0, 0, 0, 0, 0, 0⟩)).length = 2
      ∧ (run_mc_simulation 2 ⟨28000, 8 / 100, 34 / 100, 6 / 100, 5 / 100,
            1 / 100, 21 / 100⟩ ⟨1 / 100, 1 / 100, 1 / 100, 1 / 100,
            1 / 100, 1 / 100⟩ 1 none (75 / 1000) (15 / 1000) (25 / 1000)
            (5 / 1000) (fun _ => ⟨0, 0, 0, 0, 0, 0, 0, 0⟩)).countP
            (fun v => v.isNone)
          + (run_mc_simulation 2 ⟨28000, 8 / 100, 34 / 100, 6 / 100,
              5 / 100, 1 / 100, 21 / 100⟩ ⟨1 / 100, 1 / 100, 1 / 100,
              1 / 100, 1 / 100, 1 / 100⟩ 1 none (75 / 1000) (15 / 1000)
              (25 / 1000) (5 / 1000)
              (fun _ => ⟨0, 0, 0, 0, 0, 0, 0, 0⟩)).countP
              (fun v => v.isSome) = 2
      ∧ (∀ i, i < 2 →
          (run_mc_simulation 2 ⟨28000, 8 / 100, 34 / 100, 6 / 100, 5 / 100,
              1 / 100, 21 / 100⟩ ⟨1 / 100, 1 / 100, 1 / 100, 1 / 100,
              1 / 100, 1 / 100⟩ 1 none (75 / 1000) (15 / 1000) (25 / 1000)
              (5 / 1000) (fun _ => ⟨0, 0, 0, 0, 0, 0, 0, 0⟩))[i]?
            = some (mc_trial ⟨28000, 8 / 100, 34 / 100, 6 / 100, 5 / 100,
                1 / 100, 21 / 100⟩ ⟨1 / 100, 1 / 100, 1 / 100, 1 / 100,
                1 / 100, 1 / 100⟩ 1 none (75 / 1000) (15 / 1000)
                (25 / 1000) (5 / 1000)
                ((fun _ => ⟨0, 0, 0, 0, 0, 0, 0, 0⟩) i)))) :=
  ⟨by decide,
    run_mc_simulation_trials 2 ⟨28000, 8 / 100, 34 / 100, 6 / 100, 5 / 100,
        1 / 100, 21 / 100⟩ ⟨1 / 100, 1 / 100, 1 / 100, 1 / 100, 1 / 100,
        1 / 100⟩ 1 none (75 / 1000) (15 / 1000) (25 / 1000) (5 / 1000)
      (fun _ => ⟨0, 0, 0, 0, 0, 0, 0, 0⟩) (by decide)⟩
